import Mathlib

/-!
Verification of the odxtools reference-resolution and computation-method core.

The excerpt of the repository contains `compumethods/compuphystointernal.py`
and the test suite `test_singleecujob.py`.  Definitions below that embed code
present in the excerpt are translated directly from it; the remaining parts of
the library (the link database, the computation methods, the single-ECU job
model, the named item list and the ODX reader/writer) are modelled from the
specification, as indicated by their doc comments.
-/

namespace Odx

/- ======================= Identity & Reference layer ======================= -/

/-- A document fragment: identifies one source document (name + type/revision).
Mirrors `OdxDocFragment("UnitTest", "WinneThePoh")` used by the tests. -/
structure OdxDocFragment where
  doc_name : String
  doc_type : String
deriving DecidableEq, Repr

/-- Modelled from the spec: `LinkId` — a string identifier plus the set of
DocFragments it is valid within (`OdxLinkId(local_id, doc_fragments)`). -/
structure OdxLinkId where
  local_id : String
  doc_fragments : List OdxDocFragment
deriving DecidableEq, Repr

/-- Modelled from the spec: `LinkRef` — a target identifier string plus the set
of DocFragments the referring object was parsed in. -/
structure OdxLinkRef where
  ref_id : String
  ref_docs : List OdxDocFragment
deriving DecidableEq, Repr

/-- `OdxLinkRef.from_id`: build a reference pointing at a given id. -/
def OdxLinkRef.from_id (i : OdxLinkId) : OdxLinkRef :=
  ⟨i.local_id, i.doc_fragments⟩

/-- Two fragment sets intersect iff they share at least one fragment. -/
def fragsIntersect (a b : List OdxDocFragment) : Bool :=
  a.any fun f => b.contains f

/-- Errors raised by reference resolution. -/
inductive ResolveError where
  | unresolvedReferenceError
  | ambiguousReferenceError
deriving DecidableEq, Repr

/-- Modelled from the spec: the `LinkDatabase` — a mapping from LinkId to
owning object, built by merging per-document maps. -/
structure OdxLinkDatabase (α : Type) where
  entries : List (OdxLinkId × α)
deriving DecidableEq, Repr

/-- Candidate set for a reference: all registered ids whose localId equals the
ref's target string. -/
def OdxLinkDatabase.candidates (db : OdxLinkDatabase α) (r : OdxLinkRef) :
    List (OdxLinkId × α) :=
  db.entries.filter fun e => e.1.local_id == r.ref_id

/-- Step (1) of disambiguation: the candidates whose DocFragment set intersects
the ref's DocFragment set. -/
def OdxLinkDatabase.preferred (db : OdxLinkDatabase α) (r : OdxLinkRef) :
    List (OdxLinkId × α) :=
  (db.candidates r).filter fun e => fragsIntersect e.1.doc_fragments r.ref_docs

/-- The candidates remaining after preferring fragment-overlapping ones: if any
candidate overlaps, only those remain, otherwise all candidates remain. -/
def OdxLinkDatabase.remaining (db : OdxLinkDatabase α) (r : OdxLinkRef) :
    List (OdxLinkId × α) :=
  if (db.preferred r).isEmpty then db.candidates r else db.preferred r

/-- Modelled from the spec: `resolve(ref)` — candidate set = all registered ids
whose localId equals ref's target string; (1) prefer a candidate whose
DocFragment set intersects ref's DocFragment set; (2) if exactly one candidate
remains, return it; (3) if zero candidates remain, fail with
`UnresolvedReferenceError`; (4) if more than one remains after step 1, fail
with `AmbiguousReferenceError`. -/
def OdxLinkDatabase.resolve (db : OdxLinkDatabase α) (r : OdxLinkRef) :
    Except ResolveError α :=
  match db.remaining r with
  | [] => .error .unresolvedReferenceError
  | [e] => .ok e.2
  | _ :: _ :: _ => .error .ambiguousReferenceError

/- concrete data for the resolve witness -/

/-- document fragment used throughout the tests -/
def fragTest : OdxDocFragment := ⟨"UnitTest", "WinneThePoh"⟩

/-- a second document fragment, for cross-document collisions -/
def fragOther : OdxDocFragment := ⟨"OtherDoc", "Rev1"⟩

/-- an id named "ID.a" defined in the test document -/
def idA : OdxLinkId := ⟨"ID.a", [fragTest]⟩

/-- an id with the same local string defined in another document -/
def idA' : OdxLinkId := ⟨"ID.a", [fragOther]⟩

/-- a database holding both colliding ids -/
def dbW : OdxLinkDatabase String := ⟨[(idA, "objA"), (idA', "objB")]⟩

/-- a ref to "ID.a" from inside the test document: unique after preferring -/
def refHit : OdxLinkRef := ⟨"ID.a", [fragTest]⟩

/-- a ref to an id that is not registered at all -/
def refMiss : OdxLinkRef := ⟨"ID.missing", [fragTest]⟩

/-- a ref to "ID.a" from no document: both candidates remain -/
def refAmb : OdxLinkRef := ⟨"ID.a", []⟩

/- ===================== Value model: limits and scales ===================== -/

/-- Data types declared for internal/physical representations. -/
inductive DataType where
  | a_int32
  | a_uint32
  | a_float32
  | a_float64
  | a_bytefield
  | a_unicode2string
  | a_ascii
  | a_utf8string
deriving DecidableEq, Repr

/-- Whether a data type only holds integral values. -/
def DataType.isIntegral : DataType → Bool
  | .a_int32 => true
  | .a_uint32 => true
  | _ => false

/-- Interval kind of a limit: closed includes the boundary, open excludes it,
infinite is unbounded. -/
inductive IntervalType where
  | opened
  | closed
  | infinite
deriving DecidableEq, Repr

/-- Modelled from the spec: a `Limit` — a boundary value with an interval kind.
The interval kind defaults to closed, as in `Limit(0)` in the tests. -/
structure Limit (α : Type) where
  value : α
  interval_type : IntervalType := .closed
deriving DecidableEq, Repr

/-- Does the value satisfy this limit taken as a lower bound? -/
def Limit.acceptsLower [LinearOrder α] (l : Limit α) (v : α) : Bool :=
  match l.interval_type with
  | .closed => decide (l.value ≤ v)
  | .opened => decide (l.value < v)
  | .infinite => true

/-- Does the value satisfy this limit taken as an upper bound? -/
def Limit.acceptsUpper [LinearOrder α] (l : Limit α) (v : α) : Bool :=
  match l.interval_type with
  | .closed => decide (v ≤ l.value)
  | .opened => decide (v < l.value)
  | .infinite => true

/-- Errors raised when decoding an internal value. -/
inductive DecodeError where
  | decodeError
deriving DecidableEq, Repr

/-- Errors raised when encoding a physical value. -/
inductive EncodingError where
  | encodingError
deriving DecidableEq, Repr

/-- Modelled from the spec: one discrete scale of a TexTable computation
method — a lower limit, an optional upper limit and a constant physical value.
When the upper limit is omitted the scale covers exactly the point of its
lower limit, as in `CompuScale("yes", lower_limit=Limit(0),
compu_const="Yes!")`. -/
structure TexttableScale where
  short_name : String
  lower_limit : Limit Int
  upper_limit : Option (Limit Int) := none
  compu_const : String
deriving DecidableEq, Repr

/-- Membership of an internal value in a texttable scale, honouring each
limit's interval kind. -/
def TexttableScale.containsValue (s : TexttableScale) (v : Int) : Bool :=
  s.lower_limit.acceptsLower v &&
    (match s.upper_limit with
     | some u => u.acceptsUpper v
     | none => s.lower_limit.acceptsUpper v)

/-- Modelled from the spec: a TexTable computation method — an ordered list of
discrete scales with constant mappings, an optional default value, and the
declared internal data type. -/
structure TexttableCompuMethod where
  internal_to_phys : List TexttableScale
  compu_default_value : Option String := none
  internal_type : DataType
deriving DecidableEq, Repr

/-- Modelled from the spec: TexTable decode — iterate the ordered scale list;
the first scale whose bounds contain the internal value determines the result;
no match and no default value → `DecodeError`; no match with a default →
return the default. -/
def TexttableCompuMethod.convert_internal_to_physical
    (m : TexttableCompuMethod) (v : Int) : Except DecodeError String :=
  match m.internal_to_phys.find? (fun s => s.containsValue v) with
  | some s => .ok s.compu_const
  | none =>
    match m.compu_default_value with
    | some d => .ok d
    | none => .error .decodeError

/-- Modelled from the spec: one scale of a ScaleLinear computation method — a
lower and upper limit on the internal domain and a linear mapping (factor,
offset); an unbounded side is expressed by an infinite limit. -/
structure LinearScale where
  lower_limit : Limit ℚ
  upper_limit : Limit ℚ
  factor : ℚ
  offset : ℚ
deriving DecidableEq, Repr

/-- Membership of an internal value in a linear scale. -/
def LinearScale.containsValue (s : LinearScale) (v : ℚ) : Bool :=
  s.lower_limit.acceptsLower v && s.upper_limit.acceptsUpper v

/-- Modelled from the spec: a ScaleLinear computation method — an ordered list
of linear scales, an optional default value, and the declared types. -/
structure ScaleLinearCompuMethod where
  scales : List LinearScale
  compu_default_value : Option ℚ := none
  internal_type : DataType
  physical_type : DataType
deriving DecidableEq, Repr

/-- Modelled from the spec: ScaleLinear decode — the first scale whose bounds
contain the internal value determines the result via its linear formula; no
match and no default → `DecodeError`; otherwise the default. -/
def ScaleLinearCompuMethod.convert_internal_to_physical
    (m : ScaleLinearCompuMethod) (v : ℚ) : Except DecodeError ℚ :=
  match m.scales.find? (fun s => s.containsValue v) with
  | some s => .ok (v * s.factor + s.offset)
  | none =>
    match m.compu_default_value with
    | some d => .ok d
    | none => .error .decodeError

/-- The texttable method of the test's `inputDOP`: internal 0 ↦ "Yes!",
internal 1 ↦ "No!", no default value. -/
def yesNoCompuMethod : TexttableCompuMethod :=
  { internal_to_phys :=
      [{ short_name := "yes", lower_limit := ⟨0, .closed⟩, compu_const := "Yes!" },
       { short_name := "no", lower_limit := ⟨1, .closed⟩, compu_const := "No!" }],
    internal_type := .a_uint32 }

/-- A texttable method with overlapping scales and a default value, exercising
first-match and the default fallback. -/
def overlapCompuMethod : TexttableCompuMethod :=
  { internal_to_phys :=
      [{ short_name := "low", lower_limit := ⟨0, .closed⟩,
         upper_limit := some ⟨5, .closed⟩, compu_const := "low" },
       { short_name := "high", lower_limit := ⟨3, .closed⟩,
         upper_limit := some ⟨8, .closed⟩, compu_const := "high" }],
    compu_default_value := some "fallback",
    internal_type := .a_uint32 }

/-- A scale-linear method with two overlapping scales and no default. -/
def scaleLinW : ScaleLinearCompuMethod :=
  { scales :=
      [{ lower_limit := ⟨0, .closed⟩, upper_limit := ⟨5, .closed⟩,
         factor := 2, offset := 1 },
       { lower_limit := ⟨3, .closed⟩, upper_limit := ⟨(0 : ℚ), .infinite⟩,
         factor := 10, offset := 0 }],
    internal_type := .a_uint32, physical_type := .a_uint32 }

/- ===================== Linear computation method ===================== -/

/-- Can the integer be represented in `bit_length` bits of the given data
type (unsigned range for `a_uint32`, two's-complement range for `a_int32`)? -/
def fitsBitLength (dt : DataType) (bit_length : ℕ) (n : ℤ) : Bool :=
  match dt with
  | .a_uint32 => decide (0 ≤ n ∧ n < 2 ^ bit_length)
  | .a_int32 => decide (-(2 ^ (bit_length - 1)) ≤ n ∧ n < 2 ^ (bit_length - 1))
  | _ => true

/-- Modelled from the spec: a Linear computation method — a single offset and
factor bound to declared internal and physical data types, as constructed by
`LinearCompuMethod(offset, factor, internal_type=…, physical_type=…)`. -/
structure LinearCompuMethod where
  offset : ℚ
  factor : ℚ
  internal_type : DataType
  physical_type : DataType
deriving DecidableEq, Repr

/-- Modelled from the spec: Linear decode — `physical = internal * f + offset`. -/
def LinearCompuMethod.convert_internal_to_physical
    (m : LinearCompuMethod) (v : ℚ) : ℚ :=
  v * m.factor + m.offset

/-- Modelled from the spec: Linear encode — `internal = (physical - offset) / f`;
fails with `EncodingError` if `f == 0`, or if the computed internal value
cannot be represented losslessly in the declared bit width (non-integral
result when the internal type is integral, or out of the declared range); it
never truncates or wraps. -/
def LinearCompuMethod.convert_physical_to_internal
    (m : LinearCompuMethod) (bit_length : ℕ) (x : ℚ) : Except EncodingError ℚ :=
  if m.factor = 0 then
    .error .encodingError
  else
    let q := (x - m.offset) / m.factor
    if m.internal_type.isIntegral then
      if q.den = 1 then
        if fitsBitLength m.internal_type bit_length q.num then .ok q
        else .error .encodingError
      else .error .encodingError
    else .ok q

/-- The linear method of the test's `outputDOP`: `LinearCompuMethod(1, -1)`,
offset 1 and factor -1 on a 1-bit unsigned internal type. -/
def outputLinearMethod : LinearCompuMethod :=
  { offset := 1, factor := -1, internal_type := .a_uint32,
    physical_type := .a_uint32 }

/-- A scale-linear method with a default value. -/
def scaleLinDefW : ScaleLinearCompuMethod :=
  { scales :=
      [{ lower_limit := ⟨0, .closed⟩, upper_limit := ⟨5, .closed⟩,
         factor := 2, offset := 1 }],
    compu_default_value := some 7,
    internal_type := .a_uint32, physical_type := .a_uint32 }

/-- A linear method whose factor is zero. -/
def zeroFactorMethod : LinearCompuMethod :=
  { offset := 0, factor := 0, internal_type := .a_uint32,
    physical_type := .a_uint32 }

/-- A linear method on an integral internal type for which some physical
values encode to non-integral internal values. -/
def intEncodeMethod : LinearCompuMethod :=
  { offset := 0, factor := 2, internal_type := .a_uint32,
    physical_type := .a_uint32 }

/- ===================== Parameter/Job model ===================== -/

/-- Modelled from the spec: an audience — sets of LinkRefs to enabled and
disabled audience entries. -/
structure Audience where
  enabled_audience_refs : List OdxLinkRef := []
  disabled_audience_refs : List OdxLinkRef := []
deriving DecidableEq, Repr

/-- Modelled from the spec: a `ProgCode` — descriptor of an externally
implemented conversion routine (file, syntax, revision, entry point, set of
library LinkRefs).  The `syntax` field of the source is called `syntax_kind`
here because `syntax` is reserved in Lean. -/
structure ProgCode where
  code_file : String
  encryption : Option String := none
  syntax_kind : String
  revision : String
  entrypoint : Option String := none
  library_refs : List OdxLinkRef := []
deriving DecidableEq, Repr

/-- Modelled from the spec: the `ProgCode` constructor — an omitted library-ref
collection defaults to the empty list, never to an absent value. -/
def ProgCode.create (code_file syntax_kind revision : String)
    (encryption : Option String := none) (entrypoint : Option String := none)
    (library_refs : Option (List OdxLinkRef) := none) : ProgCode :=
  { code_file := code_file, encryption := encryption,
    syntax_kind := syntax_kind, revision := revision,
    entrypoint := entrypoint, library_refs := library_refs.getD [] }

/-- Modelled from the spec: an `InputParam` — short name, physical default
value, and a LinkRef to a DOP. -/
structure InputParam where
  short_name : String
  physical_default_value : Option String := none
  dop_base_ref : OdxLinkRef
deriving DecidableEq, Repr

/-- Modelled from the spec: an `OutputParam` — it additionally carries its own
LinkId and a semantic tag. -/
structure OutputParam where
  odx_link_id : OdxLinkId
  short_name : String
  long_name : Option String := none
  description : Option String := none
  semantic : Option String := none
  dop_base_ref : OdxLinkRef
deriving DecidableEq, Repr

/-- Modelled from the spec: a `NegOutputParam` — descriptive text only plus
its DOP reference. -/
structure NegOutputParam where
  short_name : String
  description : Option String := none
  dop_base_ref : OdxLinkRef
deriving DecidableEq, Repr

/-- Modelled from the spec: a single-ECU job — short name, own LinkId, LinkRefs
to functional classes, an optional audience, prog codes, and ordered
collections of input/output/neg-output params. -/
structure SingleEcuJob where
  odx_link_id : OdxLinkId
  short_name : String
  functional_class_refs : List OdxLinkRef
  audience : Option Audience
  prog_codes : List ProgCode
  input_params : List InputParam
  output_params : List OutputParam
  neg_output_params : List NegOutputParam
deriving DecidableEq, Repr

/-- Modelled from the spec: the `SingleEcuJob` constructor — omitted optional
collections default to empty, never absent/null. -/
def SingleEcuJob.create (odx_link_id : OdxLinkId) (short_name : String)
    (prog_codes : List ProgCode)
    (functional_class_refs : Option (List OdxLinkRef) := none)
    (audience : Option Audience := none)
    (input_params : Option (List InputParam) := none)
    (output_params : Option (List OutputParam) := none)
    (neg_output_params : Option (List NegOutputParam) := none) : SingleEcuJob :=
  { odx_link_id := odx_link_id, short_name := short_name,
    functional_class_refs := functional_class_refs.getD [],
    audience := audience, prog_codes := prog_codes,
    input_params := input_params.getD [],
    output_params := output_params.getD [],
    neg_output_params := neg_output_params.getD [] }

/- ===================== NamedItemList ===================== -/

/-- Modelled from the spec: a `NamedItemList` — an ordered collection keyed by
a name derived from each element's short name. -/
structure NamedItemList (α : Type) where
  build_name : α → String
  items : List (String × α)

/-- The keys currently used in the list. -/
def NamedItemList.keys (l : NamedItemList α) : List String :=
  l.items.map Prod.fst

/-- Modelled from the spec: insertion — keys must be unique; on collision the
later entry is renamed by appending a disambiguating suffix derived from its
position, never silently dropped or overwritten. -/
def NamedItemList.append (l : NamedItemList α) (x : α) : NamedItemList α :=
  ⟨l.build_name,
   l.items ++
     [(if l.build_name x ∈ l.keys
       then l.build_name x ++ "_" ++ toString l.items.length
       else l.build_name x, x)]⟩

/-- Retrieval by key: the first entry stored under the name. -/
def NamedItemList.get (l : NamedItemList α) (name : String) : Option α :=
  (l.items.find? fun e => decide (e.1 = name)).map Prod.snd

/-- An empty named item list over input params, keyed by short name. -/
def emptyInputParamList : NamedItemList InputParam :=
  ⟨InputParam.short_name, []⟩

/-- Two distinct input params sharing the derived short name "dup". -/
def dupParamA : InputParam :=
  { short_name := "dup", dop_base_ref := ⟨"ID.a", [fragTest]⟩ }

/-- The second colliding input param. -/
def dupParamB : InputParam :=
  { short_name := "dup", physical_default_value := some "v",
    dop_base_ref := ⟨"ID.b", [fragTest]⟩ }

/- ===================== DOPs and the resolution pass ===================== -/

/-- Modelled from the spec: a functional class (organizational metadata). -/
structure FunctionalClass where
  odx_link_id : OdxLinkId
  short_name : String
deriving DecidableEq, Repr

/-- Modelled from the spec: an additional audience entry. -/
structure AdditionalAudience where
  odx_link_id : OdxLinkId
  short_name : String
deriving DecidableEq, Repr

/-- Modelled from the spec: a diagnostic coded type — base type + bit length. -/
structure StandardLengthType where
  base_data_type : DataType
  bit_length : ℕ
deriving DecidableEq, Repr

/-- Modelled from the spec: a physical type descriptor. -/
structure PhysicalType where
  base_data_type : DataType
deriving DecidableEq, Repr

/-- Modelled from the spec: the closed set of computation-method variants. -/
inductive CompuMethod where
  | identical
  | linear (m : LinearCompuMethod)
  | scaleLinear (m : ScaleLinearCompuMethod)
  | texttable (m : TexttableCompuMethod)
deriving DecidableEq, Repr

/-- Modelled from the spec: a data-object property — bit-layout descriptor,
physical type and one computation method. -/
structure DataObjectProperty where
  odx_link_id : OdxLinkId
  short_name : String
  diag_coded_type : StandardLengthType
  physical_type : PhysicalType
  compu_method : CompuMethod
deriving DecidableEq, Repr

/-- The kinds of objects the test's link database registers. -/
inductive OdxObject where
  | functionalClass (fc : FunctionalClass)
  | additionalAudience (aud : AdditionalAudience)
  | dataObjectProperty (dop : DataObjectProperty)
deriving DecidableEq, Repr

/-- Project a database object to a functional class, if it is one. -/
def OdxObject.asFunctionalClass : OdxObject → Option FunctionalClass
  | .functionalClass fc => some fc
  | _ => none

/-- Project a database object to an additional audience, if it is one. -/
def OdxObject.asAdditionalAudience : OdxObject → Option AdditionalAudience
  | .additionalAudience aud => some aud
  | _ => none

/-- Project a database object to a data-object property, if it is one. -/
def OdxObject.asDataObjectProperty : OdxObject → Option DataObjectProperty
  | .dataObjectProperty dop => some dop
  | _ => none

/-- Map a fallible function over a list, failing if any element fails. -/
def optListMap (f : α → Option β) : List α → Option (List β)
  | [] => some []
  | a :: rest =>
    match f a, optListMap f rest with
    | some b, some bs => some (b :: bs)
    | _, _ => none

/-- Resolve a list of references, requiring each target to be registered and
of the expected kind. -/
def resolveAll (db : OdxLinkDatabase OdxObject) (extract : OdxObject → Option β)
    (rs : List OdxLinkRef) : Option (List β) :=
  optListMap (fun r => (db.resolve r).toOption.bind extract) rs

/-- The bound associations produced by the resolution pass over a single-ECU
job: every symbolic reference replaced by the resolved object. -/
structure ResolvedSingleEcuJob where
  functional_classes : List FunctionalClass
  enabled_audiences : List AdditionalAudience
  input_dops : List DataObjectProperty
  output_dops : List DataObjectProperty
  neg_output_dops : List DataObjectProperty
deriving DecidableEq, Repr

/-- Modelled from the spec: the resolution pass over one job — a traversal
that, given the completed link database, replaces every symbolic reference
held by the job and its params with a bound association to the resolved
object, failing if any reference does not resolve. -/
def resolveSingleEcuJob (db : OdxLinkDatabase OdxObject) (job : SingleEcuJob) :
    Option ResolvedSingleEcuJob :=
  (resolveAll db OdxObject.asFunctionalClass job.functional_class_refs).bind
    fun fcs =>
  (resolveAll db OdxObject.asAdditionalAudience
      ((job.audience.map Audience.enabled_audience_refs).getD [])).bind
    fun auds =>
  (resolveAll db OdxObject.asDataObjectProperty
      (job.input_params.map InputParam.dop_base_ref)).bind
    fun idops =>
  (resolveAll db OdxObject.asDataObjectProperty
      (job.output_params.map OutputParam.dop_base_ref)).bind
    fun odops =>
  (resolveAll db OdxObject.asDataObjectProperty
      (job.neg_output_params.map NegOutputParam.dop_base_ref)).map
    fun ndops =>
  ⟨fcs, auds, idops, odops, ndops⟩

/- the test's context objects and job -/

/-- the test's `extensiveTask` functional class -/
def extensiveTask : FunctionalClass :=
  ⟨⟨"ID.extensiveTask", [fragTest]⟩, "extensiveTask"⟩

/-- the test's `specialAudience` additional audience -/
def specialAudience : AdditionalAudience :=
  ⟨⟨"ID.specialAudience", [fragTest]⟩, "specialAudience"⟩

/-- the test's `inputDOP` with its texttable computation method -/
def inputDOP : DataObjectProperty :=
  { odx_link_id := ⟨"ID.inputDOP", [fragTest]⟩,
    short_name := "inputDOP",
    diag_coded_type := ⟨.a_int32, 1⟩,
    physical_type := ⟨.a_unicode2string⟩,
    compu_method := .texttable yesNoCompuMethod }

/-- the test's `outputDOP` with its linear computation method -/
def outputDOP : DataObjectProperty :=
  { odx_link_id := ⟨"ID.outputDOP", [fragTest]⟩,
    short_name := "outputDOP",
    diag_coded_type := ⟨.a_int32, 1⟩,
    physical_type := ⟨.a_unicode2string⟩,
    compu_method := .linear outputLinearMethod }

/-- the test's `negOutputDOP` -/
def negOutputDOP : DataObjectProperty :=
  { odx_link_id := ⟨"ID.negOutputDOP", [fragTest]⟩,
    short_name := "negOutputDOP",
    diag_coded_type := ⟨.a_int32, 1⟩,
    physical_type := ⟨.a_unicode2string⟩,
    compu_method := .linear outputLinearMethod }

/-- the test's link database: all context objects keyed by their ids -/
def testDb : OdxLinkDatabase OdxObject :=
  ⟨[(extensiveTask.odx_link_id, .functionalClass extensiveTask),
    (specialAudience.odx_link_id, .additionalAudience specialAudience),
    (inputDOP.odx_link_id, .dataObjectProperty inputDOP),
    (outputDOP.odx_link_id, .dataObjectProperty outputDOP),
    (negOutputDOP.odx_link_id, .dataObjectProperty negOutputDOP)]⟩

/-- the test's `singleecujob_object` ("JumpStart") -/
def testJob : SingleEcuJob :=
  { odx_link_id := ⟨"ID.JumpStart", [fragTest]⟩,
    short_name := "JumpStart",
    functional_class_refs := [.from_id extensiveTask.odx_link_id],
    audience := some
      { enabled_audience_refs := [.from_id specialAudience.odx_link_id] },
    prog_codes :=
      [{ code_file := "abc.jar", encryption := some "RSA512",
         syntax_kind := "JAR", revision := "0.12.34",
         entrypoint := some "CalledClass",
         library_refs := [⟨"my.favourite.lib", [fragTest]⟩] }],
    input_params :=
      [{ short_name := "inputParam", physical_default_value := some "Yes!",
         dop_base_ref := .from_id inputDOP.odx_link_id }],
    output_params :=
      [{ odx_link_id := ⟨"ID.outputParam", [fragTest]⟩,
         short_name := "outputParam",
         long_name := some "The Output Param",
         description := some "<p>The one and only output of this job.</p>",
         semantic := some "DATA",
         dop_base_ref := .from_id outputDOP.odx_link_id }],
    neg_output_params :=
      [{ short_name := "NegativeOutputParam",
         description := some "<p>The one and only output of this job.</p>",
         dop_base_ref := .from_id negOutputDOP.odx_link_id }] }

/-- the associations the resolution pass binds for the test job -/
def testResolved : ResolvedSingleEcuJob :=
  { functional_classes := [extensiveTask],
    enabled_audiences := [specialAudience],
    input_dops := [inputDOP],
    output_dops := [outputDOP],
    neg_output_dops := [negOutputDOP] }

/- ===================== ODX document rendering and reading ===================== -/

/-- A document element, mirroring `xml.etree.ElementTree.Element`: a tag,
attributes, child elements and text. -/
inductive XElem where
  | elem (tag : String) (attrs : List (String × String)) (children : List XElem)
      (text : String)

/-- The element's tag. -/
def XElem.tag : XElem → String
  | .elem t _ _ _ => t

/-- The element's attributes. -/
def XElem.attrs : XElem → List (String × String)
  | .elem _ a _ _ => a

/-- The element's direct children. -/
def XElem.children : XElem → List XElem
  | .elem _ _ c _ => c

/-- The element's text. -/
def XElem.text : XElem → String
  | .elem _ _ _ s => s

/-- `Element.find(tag)`: first direct child with the tag, if any. -/
def XElem.findChild (e : XElem) (t : String) : Option XElem :=
  e.children.find? fun c => decide (c.tag = t)

/-- An attribute lookup (`Element.get`). -/
def XElem.attr (e : XElem) (k : String) : Option String :=
  (e.attrs.find? fun p => decide (p.1 = k)).map Prod.snd

/-- The text of the first direct child with the tag, if any. -/
def XElem.childText (e : XElem) (t : String) : Option String :=
  (e.findChild t).map XElem.text

/-- All direct children with the tag, in document order. -/
def XElem.childrenWithTag (e : XElem) (t : String) : List XElem :=
  e.children.filter fun c => decide (c.tag = t)

/-- `Element.iterfind("T1/T2")`: the T2-children of all T1-children, in
document order. -/
def XElem.iterfind2 (e : XElem) (t1 t2 : String) : List XElem :=
  (e.childrenWithTag t1).flatMap fun c => c.childrenWithTag t2

/-- A leaf element holding only text. -/
def renderTextEl (tag s : String) : XElem :=
  .elem tag [] [] s

/-- An optional leaf element: absent when the value is absent. -/
def renderOptTextEl (tag : String) : Option String → List XElem
  | none => []
  | some s => [renderTextEl tag s]

/-- A reference element carrying an ID-REF attribute. -/
def renderRef (tag : String) (r : OdxLinkRef) : XElem :=
  .elem tag [("ID-REF", r.ref_id)] [] ""

/-- Modelled from the spec: reading a reference — the target string from the
ID-REF attribute, the fragment set from the reading document. -/
def parseRef (df : List OdxDocFragment) (e : XElem) : Option OdxLinkRef :=
  (e.attr "ID-REF").map fun s => ⟨s, df⟩

/-- Modelled from the spec: rendering a `ProgCode` in the ODX shape used by
the tests. -/
def renderProgCode (pc : ProgCode) : XElem :=
  .elem "PROG-CODE" []
    ([renderTextEl "CODE-FILE" pc.code_file]
      ++ renderOptTextEl "ENCRYPTION" pc.encryption
      ++ [renderTextEl "SYNTAX" pc.syntax_kind,
          renderTextEl "REVISION" pc.revision]
      ++ renderOptTextEl "ENTRYPOINT" pc.entrypoint
      ++ [.elem "LIBRARY-REFS" []
            (pc.library_refs.map (renderRef "LIBRARY-REF")) ""]) ""

/-- Modelled from the spec: reading a `ProgCode` element. -/
def parseProgCode (df : List OdxDocFragment) (e : XElem) : Option ProgCode :=
  match e.childText "CODE-FILE", e.childText "SYNTAX",
      e.childText "REVISION" with
  | some cf, some sx, some rv =>
    match e.findChild "LIBRARY-REFS" with
    | some lre =>
      (optListMap (parseRef df) lre.children).map fun refs =>
        { code_file := cf, encryption := e.childText "ENCRYPTION",
          syntax_kind := sx, revision := rv,
          entrypoint := e.childText "ENTRYPOINT", library_refs := refs }
    | none =>
      some { code_file := cf, encryption := e.childText "ENCRYPTION",
             syntax_kind := sx, revision := rv,
             entrypoint := e.childText "ENTRYPOINT", library_refs := [] }
  | _, _, _ => none

/-- Modelled from the spec: rendering an `InputParam`. -/
def renderInputParam (p : InputParam) : XElem :=
  .elem "INPUT-PARAM" []
    ([renderTextEl "SHORT-NAME" p.short_name]
      ++ renderOptTextEl "PHYSICAL-DEFAULT-VALUE" p.physical_default_value
      ++ [renderRef "DOP-BASE-REF" p.dop_base_ref]) ""

/-- Modelled from the spec: reading an `InputParam` element. -/
def parseInputParam (df : List OdxDocFragment) (e : XElem) : Option InputParam :=
  match e.childText "SHORT-NAME", (e.findChild "DOP-BASE-REF").bind (parseRef df) with
  | some sn, some r =>
    some { short_name := sn,
           physical_default_value := e.childText "PHYSICAL-DEFAULT-VALUE",
           dop_base_ref := r }
  | _, _ => none

/-- Modelled from the spec: rendering an `OutputParam` (own ID and semantic
tag as attributes). -/
def renderOutputParam (p : OutputParam) : XElem :=
  .elem "OUTPUT-PARAM"
    ([("ID", p.odx_link_id.local_id)]
      ++ (match p.semantic with
          | some s => [("SEMANTIC", s)]
          | none => []))
    ([renderTextEl "SHORT-NAME" p.short_name]
      ++ renderOptTextEl "LONG-NAME" p.long_name
      ++ renderOptTextEl "DESC" p.description
      ++ [renderRef "DOP-BASE-REF" p.dop_base_ref]) ""

/-- Modelled from the spec: reading an `OutputParam` element. -/
def parseOutputParam (df : List OdxDocFragment) (e : XElem) : Option OutputParam :=
  match e.attr "ID", e.childText "SHORT-NAME",
      (e.findChild "DOP-BASE-REF").bind (parseRef df) with
  | some i, some sn, some r =>
    some { odx_link_id := ⟨i, df⟩, short_name := sn,
           long_name := e.childText "LONG-NAME",
           description := e.childText "DESC",
           semantic := e.attr "SEMANTIC", dop_base_ref := r }
  | _, _, _ => none

/-- Modelled from the spec: rendering a `NegOutputParam`. -/
def renderNegOutputParam (p : NegOutputParam) : XElem :=
  .elem "NEG-OUTPUT-PARAM" []
    ([renderTextEl "SHORT-NAME" p.short_name]
      ++ renderOptTextEl "DESC" p.description
      ++ [renderRef "DOP-BASE-REF" p.dop_base_ref]) ""

/-- Modelled from the spec: reading a `NegOutputParam` element. -/
def parseNegOutputParam (df : List OdxDocFragment) (e : XElem) :
    Option NegOutputParam :=
  match e.childText "SHORT-NAME", (e.findChild "DOP-BASE-REF").bind (parseRef df) with
  | some sn, some r =>
    some { short_name := sn, description := e.childText "DESC",
           dop_base_ref := r }
  | _, _ => none

/-- Modelled from the spec: rendering an `Audience`. -/
def renderAudience (a : Audience) : XElem :=
  .elem "AUDIENCE" []
    [.elem "ENABLED-AUDIENCE-REFS" []
       (a.enabled_audience_refs.map (renderRef "ENABLED-AUDIENCE-REF")) "",
     .elem "DISABLED-AUDIENCE-REFS" []
       (a.disabled_audience_refs.map (renderRef "DISABLED-AUDIENCE-REF")) ""] ""

/-- Modelled from the spec: reading an `Audience` element. -/
def parseAudience (df : List OdxDocFragment) (e : XElem) : Option Audience :=
  match e.findChild "ENABLED-AUDIENCE-REFS",
      e.findChild "DISABLED-AUDIENCE-REFS" with
  | some en, some dis =>
    match optListMap (parseRef df) en.children,
        optListMap (parseRef df) dis.children with
    | some es, some ds =>
      some { enabled_audience_refs := es, disabled_audience_refs := ds }
    | _, _ => none
  | _, _ => none

/-- Modelled from the spec: the renderer — produces, for a single-ECU job, the
ODX element shape asserted by the tests; field values are reproduced
verbatim. -/
def renderSingleEcuJob (job : SingleEcuJob) : XElem :=
  .elem "SINGLE-ECU-JOB" [("ID", job.odx_link_id.local_id)]
    ([renderTextEl "SHORT-NAME" job.short_name,
      .elem "FUNCT-CLASS-REFS" []
        (job.functional_class_refs.map (renderRef "FUNCT-CLASS-REF")) ""]
      ++ (match job.audience with
          | some a => [renderAudience a]
          | none => [])
      ++ [.elem "PROG-CODES" [] (job.prog_codes.map renderProgCode) "",
          .elem "INPUT-PARAMS" [] (job.input_params.map renderInputParam) "",
          .elem "OUTPUT-PARAMS" [] (job.output_params.map renderOutputParam) "",
          .elem "NEG-OUTPUT-PARAMS" []
            (job.neg_output_params.map renderNegOutputParam) ""]) ""

/-- Modelled from the spec: `read_single_ecu_job_from_odx` — parses a job
element back into a `SingleEcuJob`, minting ids and refs against the reading
document's fragments. -/
def read_single_ecu_job_from_odx (e : XElem) (df : List OdxDocFragment) :
    Option SingleEcuJob :=
  match e.attr "ID", e.childText "SHORT-NAME" with
  | some i, some sn =>
    match e.findChild "FUNCT-CLASS-REFS", e.findChild "PROG-CODES",
        e.findChild "INPUT-PARAMS", e.findChild "OUTPUT-PARAMS",
        e.findChild "NEG-OUTPUT-PARAMS" with
    | some fce, some pce, some ipe, some ope, some npe =>
      match optListMap (parseRef df) fce.children,
          optListMap (parseProgCode df) pce.children,
          optListMap (parseInputParam df) ipe.children,
          optListMap (parseOutputParam df) ope.children,
          optListMap (parseNegOutputParam df) npe.children with
      | some fcs, some pcs, some ips, some ops, some nps =>
        match e.findChild "AUDIENCE" with
        | some ae =>
          (parseAudience df ae).map fun aud =>
            { odx_link_id := ⟨i, df⟩, short_name := sn,
              functional_class_refs := fcs, audience := some aud,
              prog_codes := pcs, input_params := ips, output_params := ops,
              neg_output_params := nps }
        | none =>
          some { odx_link_id := ⟨i, df⟩, short_name := sn,
                 functional_class_refs := fcs, audience := none,
                 prog_codes := pcs, input_params := ips, output_params := ops,
                 neg_output_params := nps }
      | _, _, _, _, _ => none
    | _, _, _, _, _ => none
  | _, _ => none

/-- All ids and refs of the job were minted against the given document
fragments (true of every graph the document parser produces for one
document). -/
def UsesDocFrags (df : List OdxDocFragment) (job : SingleEcuJob) : Prop :=
  job.odx_link_id.doc_fragments = df
  ∧ (∀ r ∈ job.functional_class_refs, r.ref_docs = df)
  ∧ (∀ r ∈ (job.audience.map Audience.enabled_audience_refs).getD [],
      r.ref_docs = df)
  ∧ (∀ r ∈ (job.audience.map Audience.disabled_audience_refs).getD [],
      r.ref_docs = df)
  ∧ (∀ pc ∈ job.prog_codes, ∀ r ∈ pc.library_refs, r.ref_docs = df)
  ∧ (∀ p ∈ job.input_params, p.dop_base_ref.ref_docs = df)
  ∧ (∀ p ∈ job.output_params,
      p.odx_link_id.doc_fragments = df ∧ p.dop_base_ref.ref_docs = df)
  ∧ (∀ p ∈ job.neg_output_params, p.dop_base_ref.ref_docs = df)

/- ============== CompuPhysToInternal (compuphystointernal.py) ============== -/

/-- Modelled from the spec: `CompuScale.compuscale_from_et` is not in the
excerpt; per the spec, each scale of one computation method is bound to the
method's declared internal and physical data types at construction, so the
model records the constructor's arguments (source element, document fragments
and the two data types). -/
structure CompuScale where
  source_element : XElem
  doc_frags : List OdxDocFragment
  internal_type : DataType
  physical_type : DataType

/-- Modelled from the spec: the `CompuScale` constructor used by
`compu_phys_to_internal_from_et`. -/
def CompuScale.compuscale_from_et (cse : XElem) (doc_frags : List OdxDocFragment)
    (internal_type physical_type : DataType) : CompuScale :=
  ⟨cse, doc_frags, internal_type, physical_type⟩

/-- Modelled from the spec: `ProgCode.from_et` is not in the excerpt; the
model records the constructor's arguments. -/
structure ProgCodeFromEt where
  source_element : XElem
  doc_frags : List OdxDocFragment

/-- Modelled from the spec: the `ProgCode.from_et` constructor. -/
def ProgCodeFromEt.from_et (pce : XElem) (doc_frags : List OdxDocFragment) :
    ProgCodeFromEt :=
  ⟨pce, doc_frags⟩

/-- Modelled from the spec: `CompuDefaultValue.from_et` is not in the excerpt;
the model records the constructor's arguments. -/
structure CompuDefaultValue where
  source_element : XElem
  doc_frags : List OdxDocFragment

/-- Modelled from the spec: the `CompuDefaultValue.from_et` constructor. -/
def CompuDefaultValue.from_et (cdve : XElem) (doc_frags : List OdxDocFragment) :
    CompuDefaultValue :=
  ⟨cdve, doc_frags⟩

/-- The `CompuPhysToInternal` dataclass of `compuphystointernal.py`: a list of
compu scales, an optional prog code and an optional default value. -/
structure CompuPhysToInternal where
  compu_scales : List CompuScale
  prog_code : Option ProgCodeFromEt
  compu_default_value : Option CompuDefaultValue

/-- `CompuPhysToInternal.compu_phys_to_internal_from_et`, translated from the
source: the scales come from `iterfind("COMPU-SCALES/COMPU-SCALE")` in
document order, each constructed with the given `internal_type` and
`physical_type`; `prog_code` is set iff a `PROG-CODE` child is found;
`compu_default_value` is set iff a `COMPU-DEFAULT-VALUE` child is found. -/
def compu_phys_to_internal_from_et (et_element : XElem)
    (doc_frags : List OdxDocFragment) (internal_type physical_type : DataType) :
    CompuPhysToInternal :=
  { compu_scales :=
      (et_element.iterfind2 "COMPU-SCALES" "COMPU-SCALE").map fun cse =>
        CompuScale.compuscale_from_et cse doc_frags internal_type physical_type,
    prog_code :=
      (et_element.findChild "PROG-CODE").map fun pce =>
        ProgCodeFromEt.from_et pce doc_frags,
    compu_default_value :=
      (et_element.findChild "COMPU-DEFAULT-VALUE").map fun cdve =>
        CompuDefaultValue.from_et cdve doc_frags }

/-- A sample COMPU-PHYS-TO-INTERNAL element with two scales and a prog code
but no default value. -/
def sampleCompuElem : XElem :=
  .elem "COMPU-PHYS-TO-INTERNAL" []
    [.elem "COMPU-SCALES" []
       [.elem "COMPU-SCALE" [] [] "first", .elem "COMPU-SCALE" [] [] "second"]
       "",
     .elem "PROG-CODE" [] [] ""] ""

end Odx

/- ============================== THEOREMS ============================== -/

namespace Odx

/-- helper: a singleton preferred list forces a singleton remaining list -/
theorem remaining_of_preferred_singleton (db : OdxLinkDatabase α) (r : OdxLinkRef)
    (i : OdxLinkId) (o : α) (h : db.preferred r = [(i, o)]) :
    db.remaining r = [(i, o)] := by
  unfold OdxLinkDatabase.remaining
  rw [h]
  simp

/-- **C1.** For every LinkRef whose target string and fragment set match exactly
one registered LinkId (the preferred-candidate list is a singleton), `resolve`
returns the object registered under that id; if zero candidates remain it
fails with `UnresolvedReferenceError`; if more than one candidate remains
after preferring fragment-overlapping candidates it fails with
`AmbiguousReferenceError`. -/
theorem linkDatabase_resolve_spec (α : Type) (db : OdxLinkDatabase α) (r : OdxLinkRef) :
    (∀ (i : OdxLinkId) (o : α), db.preferred r = [(i, o)] →
        db.resolve r = .ok o)
    ∧ (db.remaining r = [] →
        db.resolve r = .error .unresolvedReferenceError)
    ∧ (2 ≤ (db.remaining r).length →
        db.resolve r = .error .ambiguousReferenceError) := by
  refine ⟨?_, ?_, ?_⟩
  · intro i o h
    unfold OdxLinkDatabase.resolve
    rw [remaining_of_preferred_singleton db r i o h]
  · intro h
    unfold OdxLinkDatabase.resolve
    rw [h]
  · intro h
    unfold OdxLinkDatabase.resolve
    match hrem : db.remaining r with
    | [] => rw [hrem] at h; simp at h
    | [e] => rw [hrem] at h; simp at h
    | a :: b :: rest => rfl

/-- Witness for C1: in a database holding "ID.a" from two documents, a ref from
the test document resolves to the test document's object, a ref to a missing
id fails as unresolved, and a ref with no fragment overlap fails as
ambiguous. -/
theorem linkDatabase_resolve_spec_witness :
    dbW.resolve refHit = .ok "objA"
    ∧ dbW.resolve refMiss = .error .unresolvedReferenceError
    ∧ dbW.resolve refAmb = .error .ambiguousReferenceError :=
  ⟨(linkDatabase_resolve_spec String dbW refHit).1 idA "objA" (by decide),
   (linkDatabase_resolve_spec String dbW refMiss).2.1 (by decide),
   (linkDatabase_resolve_spec String dbW refAmb).2.2 (by decide)⟩

/-- helper: `find?` returns the first element satisfying the predicate -/
theorem find?_first {α : Type} {p : α → Bool} (pre post : List α) (x : α)
    (hpre : ∀ y ∈ pre, p y = false) (hx : p x = true) :
    (pre ++ x :: post).find? p = some x := by
  induction pre with
  | nil => simp [List.find?, hx]
  | cons a as ih =>
    have ha : p a = false := hpre a (List.mem_cons_self a as)
    simp only [List.cons_append, List.find?, ha]
    exact ih fun y hy => hpre y (List.mem_cons_of_mem a hy)

/-- helper: `find?` over a list with no satisfying element returns none -/
theorem find?_none {α : Type} {p : α → Bool} (l : List α)
    (h : ∀ y ∈ l, p y = false) : l.find? p = none :=
  List.find?_eq_none.mpr fun x hx => by simp [h x hx]

/-- **C2.** For texttable and scale-linear computation methods, decoding an
internal value contained in scale *i*'s bounds returns scale *i*'s mapping
even when a later scale in the ordered list could also match (first-match
policy); decoding a value that matches no scale returns the configured default
when one is present and otherwise fails with `DecodeError`.  In particular,
for the test's texttable method (0 ↦ "Yes!", 1 ↦ "No!"), decoding 0 yields
"Yes!" and decoding 2 fails with `DecodeError`. -/
theorem scale_decode_spec :
    (∀ (m : TexttableCompuMethod) (v : Int) (pre post : List TexttableScale)
        (s : TexttableScale),
        m.internal_to_phys = pre ++ s :: post →
        (∀ t ∈ pre, t.containsValue v = false) →
        s.containsValue v = true →
        m.convert_internal_to_physical v = .ok s.compu_const)
    ∧ (∀ (m : TexttableCompuMethod) (v : Int) (d : String),
        (∀ t ∈ m.internal_to_phys, t.containsValue v = false) →
        m.compu_default_value = some d →
        m.convert_internal_to_physical v = .ok d)
    ∧ (∀ (m : TexttableCompuMethod) (v : Int),
        (∀ t ∈ m.internal_to_phys, t.containsValue v = false) →
        m.compu_default_value = none →
        m.convert_internal_to_physical v = .error .decodeError)
    ∧ (∀ (m : ScaleLinearCompuMethod) (v : ℚ) (pre post : List LinearScale)
        (s : LinearScale),
        m.scales = pre ++ s :: post →
        (∀ t ∈ pre, t.containsValue v = false) →
        s.containsValue v = true →
        m.convert_internal_to_physical v = .ok (v * s.factor + s.offset))
    ∧ (∀ (m : ScaleLinearCompuMethod) (v d : ℚ),
        (∀ t ∈ m.scales, t.containsValue v = false) →
        m.compu_default_value = some d →
        m.convert_internal_to_physical v = .ok d)
    ∧ (∀ (m : ScaleLinearCompuMethod) (v : ℚ),
        (∀ t ∈ m.scales, t.containsValue v = false) →
        m.compu_default_value = none →
        m.convert_internal_to_physical v = .error .decodeError)
    ∧ yesNoCompuMethod.convert_internal_to_physical 0 = .ok "Yes!"
    ∧ yesNoCompuMethod.convert_internal_to_physical 2 = .error .decodeError := by
  refine ⟨?_, ?_, ?_, ?_, ?_, ?_, rfl, rfl⟩
  · intro m v pre post s hm hpre hs
    unfold TexttableCompuMethod.convert_internal_to_physical
    rw [hm, find?_first pre post s hpre hs]
  · intro m v d hall hd
    unfold TexttableCompuMethod.convert_internal_to_physical
    rw [find?_none _ hall, hd]
  · intro m v hall hd
    unfold TexttableCompuMethod.convert_internal_to_physical
    rw [find?_none _ hall, hd]
  · intro m v pre post s hm hpre hs
    unfold ScaleLinearCompuMethod.convert_internal_to_physical
    rw [hm, find?_first pre post s hpre hs]
  · intro m v d hall hd
    unfold ScaleLinearCompuMethod.convert_internal_to_physical
    rw [find?_none _ hall, hd]
  · intro m v hall hd
    unfold ScaleLinearCompuMethod.convert_internal_to_physical
    rw [find?_none _ hall, hd]

/-- Witness for C2: concrete decodes exercising first-match on overlapping
scales, the default fallback, and the `DecodeError` case, for both texttable
and scale-linear methods. -/
theorem scale_decode_spec_witness :
    yesNoCompuMethod.convert_internal_to_physical 0 = .ok "Yes!"
    ∧ overlapCompuMethod.convert_internal_to_physical 4 = .ok "low"
    ∧ overlapCompuMethod.convert_internal_to_physical 100 = .ok "fallback"
    ∧ yesNoCompuMethod.convert_internal_to_physical 2 = .error .decodeError
    ∧ scaleLinW.convert_internal_to_physical 4 = .ok (4 * 2 + 1)
    ∧ scaleLinDefW.convert_internal_to_physical (-1) = .ok 7
    ∧ scaleLinW.convert_internal_to_physical (-1) = .error .decodeError :=
  ⟨scale_decode_spec.1 yesNoCompuMethod 0 []
      [⟨"no", ⟨1, .closed⟩, none, "No!"⟩] ⟨"yes", ⟨0, .closed⟩, none, "Yes!"⟩
      rfl (by decide) (by decide),
   scale_decode_spec.1 overlapCompuMethod 4 []
      [⟨"high", ⟨3, .closed⟩, some ⟨8, .closed⟩, "high"⟩]
      ⟨"low", ⟨0, .closed⟩, some ⟨5, .closed⟩, "low"⟩
      rfl (by decide) (by decide),
   scale_decode_spec.2.1 overlapCompuMethod 100 "fallback" (by decide) rfl,
   scale_decode_spec.2.2.1 yesNoCompuMethod 2 (by decide) rfl,
   scale_decode_spec.2.2.2.1 scaleLinW 4 []
      [⟨⟨3, .closed⟩, ⟨(0 : ℚ), .infinite⟩, 10, 0⟩]
      ⟨⟨0, .closed⟩, ⟨5, .closed⟩, 2, 1⟩
      rfl (by decide) (by decide),
   scale_decode_spec.2.2.2.2.1 scaleLinDefW (-1) 7 (by decide) rfl,
   scale_decode_spec.2.2.2.2.2.1 scaleLinW (-1) (by decide) rfl⟩

/-- helper: a successful linear encode returns exactly the mathematical value
`(x - offset) / factor`, and can only happen with a nonzero factor -/
theorem linear_encode_ok_value (m : LinearCompuMethod) (bit_length : ℕ) (x v : ℚ)
    (h : m.convert_physical_to_internal bit_length x = .ok v) :
    v = (x - m.offset) / m.factor ∧ m.factor ≠ 0 := by
  unfold LinearCompuMethod.convert_physical_to_internal at h
  simp only at h
  split_ifs at h <;> simp_all

/-- **C4.** For every Linear computation method and every physical value whose
encoding succeeds (hence is representable within the declared internal bit
width), decoding the encoded internal value yields the physical value back
exactly: `decode (encode x) = x`, with `decode v = v * f + offset` and
`encode x = (x - offset) / f`. -/
theorem linear_decode_encode_roundtrip (m : LinearCompuMethod) (bit_length : ℕ)
    (x v : ℚ) (h : m.convert_physical_to_internal bit_length x = .ok v) :
    m.convert_internal_to_physical v = x := by
  obtain ⟨hv, h0⟩ := linear_encode_ok_value m bit_length x v h
  subst hv
  unfold LinearCompuMethod.convert_internal_to_physical
  field_simp

/-- helper: the test's linear method encodes physical 0 to internal 1 -/
theorem outputLinear_encode_zero :
    outputLinearMethod.convert_physical_to_internal 1 0 = .ok 1 := by
  unfold LinearCompuMethod.convert_physical_to_internal outputLinearMethod
  norm_num [DataType.isIntegral, fitsBitLength]

/-- Witness for C4: the test's `LinearCompuMethod(1, -1)` on a 1-bit unsigned
internal type encodes physical 0 to internal 1, and decoding 1 yields 0. -/
theorem linear_decode_encode_roundtrip_witness :
    outputLinearMethod.convert_physical_to_internal 1 0 = .ok 1
    ∧ outputLinearMethod.convert_internal_to_physical 1 = 0 :=
  ⟨outputLinear_encode_zero,
   linear_decode_encode_roundtrip outputLinearMethod 1 0 1 outputLinear_encode_zero⟩

/-- **C5.** Linear encode fails with `EncodingError` if the factor is 0, or if
the computed internal value cannot be represented losslessly in the declared
bit width (a non-integral result when the internal type is integral, or a
value outside the declared bit range); it never silently truncates or wraps:
any successful encode returns exactly `(x - offset) / factor`. -/
theorem linear_encode_error_spec (m : LinearCompuMethod) (bit_length : ℕ) (x : ℚ) :
    (m.factor = 0 →
        m.convert_physical_to_internal bit_length x = .error .encodingError)
    ∧ (m.internal_type.isIntegral = true →
        ((x - m.offset) / m.factor).den ≠ 1 →
        m.convert_physical_to_internal bit_length x = .error .encodingError)
    ∧ (m.internal_type.isIntegral = true →
        fitsBitLength m.internal_type bit_length ((x - m.offset) / m.factor).num
          = false →
        m.convert_physical_to_internal bit_length x = .error .encodingError)
    ∧ (∀ v, m.convert_physical_to_internal bit_length x = .ok v →
        v = (x - m.offset) / m.factor) := by
  refine ⟨?_, ?_, ?_, fun v h => (linear_encode_ok_value m bit_length x v h).1⟩
  · intro h0
    unfold LinearCompuMethod.convert_physical_to_internal
    rw [if_pos h0]
  · intro hint hden
    unfold LinearCompuMethod.convert_physical_to_internal
    simp only
    split_ifs <;> simp_all
  · intro hint hfits
    unfold LinearCompuMethod.convert_physical_to_internal
    simp only
    split_ifs <;> simp_all

/-- helper: physical 1 encodes to the non-integral internal value 1/2 under a
factor of 2 -/
theorem intEncode_den_ne_one :
    (((1 : ℚ) - intEncodeMethod.offset) / intEncodeMethod.factor).den ≠ 1 := by
  rw [show ((1 : ℚ) - intEncodeMethod.offset) / intEncodeMethod.factor
      = ((1 : ℤ) : ℚ) / ((2 : ℤ) : ℚ) by norm_num [intEncodeMethod]]
  simp [Rat.den_div_intCast_eq_one_iff]

/-- helper: internal value 2 does not fit into 1 unsigned bit -/
theorem outputLinear_fits_false :
    fitsBitLength outputLinearMethod.internal_type 1
      (((-1 : ℚ) - outputLinearMethod.offset) / outputLinearMethod.factor).num
      = false := by
  rw [show ((-1 : ℚ) - outputLinearMethod.offset) / outputLinearMethod.factor
      = 2 by norm_num [outputLinearMethod]]
  norm_num [outputLinearMethod, fitsBitLength]

/-- Witness for C5: a zero factor fails; a factor-2 method on an integral type
fails on physical 1 (internal 1/2, non-integral); the test's linear method
fails on physical -1 (internal 2, outside 1 bit); and the successful encode of
0 returns exactly (0 - 1) / (-1). -/
theorem linear_encode_error_spec_witness :
    (zeroFactorMethod.convert_physical_to_internal 8 5 = .error .encodingError)
    ∧ (intEncodeMethod.convert_physical_to_internal 8 1 = .error .encodingError)
    ∧ (outputLinearMethod.convert_physical_to_internal 1 (-1)
        = .error .encodingError)
    ∧ ((1 : ℚ) = ((0 : ℚ) - outputLinearMethod.offset) / outputLinearMethod.factor) :=
  ⟨(linear_encode_error_spec zeroFactorMethod 8 5).1 rfl,
   (linear_encode_error_spec intEncodeMethod 8 1).2.1 rfl intEncode_den_ne_one,
   (linear_encode_error_spec outputLinearMethod 1 (-1)).2.2.1 rfl
     outputLinear_fits_false,
   (linear_encode_error_spec outputLinearMethod 1 0).2.2.2 1
     outputLinear_encode_zero⟩

/-- **C6.** Constructing a Job while omitting every optional collection yields
empty (never absent/null) lists for the functional-class refs, the input
params, the output params, and the neg-output params, and an empty
library-ref list on its ProgCode. -/
theorem singleEcuJob_default_lists (i : OdxLinkId) (sn : String)
    (pcs : List ProgCode) (cf sx rv : String) :
    (SingleEcuJob.create i sn pcs).functional_class_refs = []
    ∧ (SingleEcuJob.create i sn pcs).input_params = []
    ∧ (SingleEcuJob.create i sn pcs).output_params = []
    ∧ (SingleEcuJob.create i sn pcs).neg_output_params = []
    ∧ (ProgCode.create cf sx rv).library_refs = [] :=
  ⟨rfl, rfl, rfl, rfl, rfl⟩

/-- helper: a string is never equal to itself extended by a positional
suffix -/
theorem key_ne_suffixed (s : String) (n : ℕ) :
    s ≠ s ++ "_" ++ toString n := by
  intro h
  have hlen := congrArg String.length h
  rw [String.length_append, String.length_append] at hlen
  have h1 : ("_" : String).length = 1 := rfl
  omega

/-- **C7.** For every NamedItemList, inserting two elements whose derived
short-name keys collide (and are fresh w.r.t. the existing keys) results in
two distinct retrievable entries: the first keeps the derived key, the later
entry is renamed by appending a suffix derived from its position, the two keys
differ, and no entry is dropped. -/
theorem namedItemList_collision_spec (α : Type) (l : NamedItemList α) (x y : α)
    (hxy : l.build_name y = l.build_name x)
    (hx : ∀ e ∈ l.items, e.1 ≠ l.build_name x)
    (hy : ∀ e ∈ l.items,
      e.1 ≠ l.build_name x ++ "_" ++ toString (l.items.length + 1)) :
    ((l.append x).append y).get (l.build_name x) = some x
    ∧ ((l.append x).append y).get
        (l.build_name x ++ "_" ++ toString (l.items.length + 1)) = some y
    ∧ l.build_name x ≠ l.build_name x ++ "_" ++ toString (l.items.length + 1)
    ∧ ((l.append x).append y).items.length = l.items.length + 2 := by
  have hbase : l.build_name x ∉ l.keys := by
    intro hmem
    obtain ⟨e, he, heq⟩ := List.mem_map.mp hmem
    exact hx e he heq
  have hl1 : l.append x = ⟨l.build_name, l.items ++ [(l.build_name x, x)]⟩ := by
    unfold NamedItemList.append
    rw [if_neg hbase]
  have hl2 : (l.append x).append y
      = ⟨l.build_name,
         l.items ++ [(l.build_name x, x)]
           ++ [(l.build_name x ++ "_" ++ toString (l.items.length + 1), y)]⟩ := by
    rw [hl1]
    unfold NamedItemList.append
    rw [if_pos (by rw [hxy]; unfold NamedItemList.keys; simp)]
    simp [hxy]
  refine ⟨?_, ?_, key_ne_suffixed _ _, ?_⟩
  · rw [hl2]
    unfold NamedItemList.get
    have harr : l.items ++ [(l.build_name x, x)]
          ++ [(l.build_name x ++ "_" ++ toString (l.items.length + 1), y)]
        = l.items ++ (l.build_name x, x)
          :: [(l.build_name x ++ "_" ++ toString (l.items.length + 1), y)] := by
      simp
    rw [harr,
      find?_first l.items _ (l.build_name x, x)
        (fun e he => decide_eq_false (hx e he)) (by simp)]
    rfl
  · rw [hl2]
    unfold NamedItemList.get
    have hpre : ∀ e ∈ l.items ++ [(l.build_name x, x)],
        (decide (e.1 = l.build_name x ++ "_" ++ toString (l.items.length + 1))
          : Bool) = false := by
      intro e he
      rcases List.mem_append.mp he with h1 | h2
      · exact decide_eq_false (hy e h1)
      · have he2 : e = (l.build_name x, x) := by simpa using h2
        subst he2
        exact decide_eq_false (key_ne_suffixed _ _)
    have harr : l.items ++ [(l.build_name x, x)]
          ++ [(l.build_name x ++ "_" ++ toString (l.items.length + 1), y)]
        = (l.items ++ [(l.build_name x, x)])
          ++ (l.build_name x ++ "_" ++ toString (l.items.length + 1), y) :: [] :=
      rfl
    rw [harr,
      find?_first (l.items ++ [(l.build_name x, x)]) []
        (l.build_name x ++ "_" ++ toString (l.items.length + 1), y)
        hpre (by simp)]
    rfl
  · rw [hl2]
    simp

/-- Witness for C7: inserting two params both named "dup" into an empty list
keyed by short name yields entries under "dup" and "dup_1", with both params
retrievable and none overwritten. -/
theorem namedItemList_collision_spec_witness :
    ((emptyInputParamList.append dupParamA).append dupParamB).get "dup"
      = some dupParamA
    ∧ ((emptyInputParamList.append dupParamA).append dupParamB).get "dup_1"
      = some dupParamB
    ∧ "dup" ≠ "dup_1"
    ∧ ((emptyInputParamList.append dupParamA).append dupParamB).items.length
      = 2 :=
  namedItemList_collision_spec InputParam emptyInputParamList dupParamA dupParamB
    rfl (by simp [emptyInputParamList]) (by simp [emptyInputParamList])

/-- helper: a successful optListMap relates inputs and outputs pointwise -/
theorem optListMap_forall₂ {α β : Type} {f : α → Option β} :
    ∀ {l : List α} {bs : List β}, optListMap f l = some bs →
      List.Forall₂ (fun a b => f a = some b) l bs := by
  intro l
  induction l with
  | nil =>
    intro bs h
    simp only [optListMap, Option.some.injEq] at h
    subst h
    exact List.Forall₂.nil
  | cons a rest ih =>
    intro bs h
    unfold optListMap at h
    cases hfa : f a with
    | none => rw [hfa] at h; simp at h
    | some b =>
      rw [hfa] at h
      cases hrest : optListMap f rest with
      | none => rw [hrest] at h; simp at h
      | some bs' =>
        rw [hrest] at h
        simp only [Option.some.injEq] at h
        subst h
        exact List.Forall₂.cons hfa (ih hrest)

/-- helper: a resolved-and-projected reference was resolved to the injected
object -/
theorem resolve_bind_extract {β : Type} (db : OdxLinkDatabase OdxObject)
    (r : OdxLinkRef) (extract : OdxObject → Option β) (mk : β → OdxObject)
    (hext : ∀ o x, extract o = some x → o = mk x) (b : β)
    (h : (db.resolve r).toOption.bind extract = some b) :
    db.resolve r = .ok (mk b) := by
  cases hres : db.resolve r with
  | error e => rw [hres] at h; simp [Except.toOption] at h
  | ok o =>
    rw [hres] at h
    simp only [Except.toOption, Option.some_bind] at h
    rw [hext o b h]

/-- helper: only a functional class projects to a functional class -/
theorem asFunctionalClass_eq (o : OdxObject) (fc : FunctionalClass)
    (h : o.asFunctionalClass = some fc) : o = .functionalClass fc := by
  cases o <;> simp [OdxObject.asFunctionalClass] at h
  rw [h]

/-- helper: only an audience entry projects to an audience entry -/
theorem asAdditionalAudience_eq (o : OdxObject) (aud : AdditionalAudience)
    (h : o.asAdditionalAudience = some aud) : o = .additionalAudience aud := by
  cases o <;> simp [OdxObject.asAdditionalAudience] at h
  rw [h]

/-- helper: only a DOP projects to a DOP -/
theorem asDataObjectProperty_eq (o : OdxObject) (dop : DataObjectProperty)
    (h : o.asDataObjectProperty = some dop) : o = .dataObjectProperty dop := by
  cases o <;> simp [OdxObject.asDataObjectProperty] at h
  rw [h]

/-- **C8.** After the resolution pass succeeds on a job (so the link database
contains every referenced target), every symbolic reference field of the job
and its params is bound to the object registered under the referenced id: the
functional-class and enabled-audience refs and each input/output/neg-output
param's dop_base_ref resolve to exactly the bound FunctionalClass, Audience
entry, and DataObjectProperty objects. -/
theorem resolve_references_spec (db : OdxLinkDatabase OdxObject)
    (job : SingleEcuJob) (r : ResolvedSingleEcuJob)
    (h : resolveSingleEcuJob db job = some r) :
    List.Forall₂ (fun ref fc => db.resolve ref = .ok (.functionalClass fc))
      job.functional_class_refs r.functional_classes
    ∧ List.Forall₂
        (fun ref aud => db.resolve ref = .ok (.additionalAudience aud))
        ((job.audience.map Audience.enabled_audience_refs).getD [])
        r.enabled_audiences
    ∧ List.Forall₂
        (fun p dop => db.resolve p.dop_base_ref = .ok (.dataObjectProperty dop))
        job.input_params r.input_dops
    ∧ List.Forall₂
        (fun p dop => db.resolve p.dop_base_ref = .ok (.dataObjectProperty dop))
        job.output_params r.output_dops
    ∧ List.Forall₂
        (fun p dop => db.resolve p.dop_base_ref = .ok (.dataObjectProperty dop))
        job.neg_output_params r.neg_output_dops := by
  unfold resolveSingleEcuJob at h
  rw [Option.bind_eq_some] at h
  obtain ⟨fcs, h1, h⟩ := h
  rw [Option.bind_eq_some] at h
  obtain ⟨auds, h2, h⟩ := h
  rw [Option.bind_eq_some] at h
  obtain ⟨idops, h3, h⟩ := h
  rw [Option.bind_eq_some] at h
  obtain ⟨odops, h4, h⟩ := h
  rw [Option.map_eq_some'] at h
  obtain ⟨ndops, h5, hr⟩ := h
  subst hr
  unfold resolveAll at h1 h2 h3 h4 h5
  refine ⟨?_, ?_, ?_, ?_, ?_⟩
  · exact (optListMap_forall₂ h1).imp fun a b hab =>
      resolve_bind_extract db a _ _ asFunctionalClass_eq b hab
  · exact (optListMap_forall₂ h2).imp fun a b hab =>
      resolve_bind_extract db a _ _ asAdditionalAudience_eq b hab
  · exact List.forall₂_map_left_iff.mp ((optListMap_forall₂ h3).imp fun a b hab =>
      resolve_bind_extract db a _ _ asDataObjectProperty_eq b hab)
  · exact List.forall₂_map_left_iff.mp ((optListMap_forall₂ h4).imp fun a b hab =>
      resolve_bind_extract db a _ _ asDataObjectProperty_eq b hab)
  · exact List.forall₂_map_left_iff.mp ((optListMap_forall₂ h5).imp fun a b hab =>
      resolve_bind_extract db a _ _ asDataObjectProperty_eq b hab)

/-- Witness for C8: on the test's job and link database the pass succeeds and
binds exactly the registered `extensiveTask`, `specialAudience`, `inputDOP`,
`outputDOP` and `negOutputDOP` objects. -/
theorem resolve_references_spec_witness :
    resolveSingleEcuJob testDb testJob = some testResolved
    ∧ List.Forall₂
        (fun ref fc => testDb.resolve ref = .ok (.functionalClass fc))
        testJob.functional_class_refs testResolved.functional_classes
    ∧ List.Forall₂
        (fun ref aud => testDb.resolve ref = .ok (.additionalAudience aud))
        ((testJob.audience.map Audience.enabled_audience_refs).getD [])
        testResolved.enabled_audiences
    ∧ List.Forall₂
        (fun p dop =>
          testDb.resolve p.dop_base_ref = .ok (.dataObjectProperty dop))
        testJob.input_params testResolved.input_dops
    ∧ List.Forall₂
        (fun p dop =>
          testDb.resolve p.dop_base_ref = .ok (.dataObjectProperty dop))
        testJob.output_params testResolved.output_dops
    ∧ List.Forall₂
        (fun p dop =>
          testDb.resolve p.dop_base_ref = .ok (.dataObjectProperty dop))
        testJob.neg_output_params testResolved.neg_output_dops :=
  ⟨by decide,
   (resolve_references_spec testDb testJob testResolved (by decide)).1,
   (resolve_references_spec testDb testJob testResolved (by decide)).2.1,
   (resolve_references_spec testDb testJob testResolved (by decide)).2.2.1,
   (resolve_references_spec testDb testJob testResolved (by decide)).2.2.2.1,
   (resolve_references_spec testDb testJob testResolved (by decide)).2.2.2.2⟩

/-- helper: optListMap inverts a map whose elements it inverts pointwise -/
theorem optListMap_map {α β : Type} {f : β → Option α} {g : α → β} :
    ∀ (l : List α), (∀ x ∈ l, f (g x) = some x) →
      optListMap f (l.map g) = some l := by
  intro l
  induction l with
  | nil => intro _; rfl
  | cons a rest ih =>
    intro h
    simp only [List.map_cons]
    unfold optListMap
    rw [h a (List.mem_cons_self a rest),
      ih fun x hx => h x (List.mem_cons_of_mem a hx)]

/-- helper: reading back a rendered reference -/
theorem parseRef_renderRef (df : List OdxDocFragment) (tag : String)
    (r : OdxLinkRef) (h : r.ref_docs = df) :
    parseRef df (renderRef tag r) = some r := by
  cases r with
  | mk rid rdocs =>
    cases h
    rfl

/-- helper: reading back a rendered prog code -/
theorem parseProgCode_render (df : List OdxDocFragment) (pc : ProgCode)
    (h : ∀ r ∈ pc.library_refs, r.ref_docs = df) :
    parseProgCode df (renderProgCode pc) = some pc := by
  cases pc with
  | mk cf enc sx rv ep lib =>
    have hlib : optListMap (parseRef df) (lib.map (renderRef "LIBRARY-REF"))
        = some lib :=
      optListMap_map _ fun r hr => parseRef_renderRef df _ r (h r hr)
    cases enc <;> cases ep <;>
      simp [parseProgCode, renderProgCode, renderTextEl, renderOptTextEl,
        renderRef, XElem.findChild, XElem.childText, XElem.attr,
        XElem.children, XElem.tag, XElem.text, XElem.attrs, List.find?, hlib]

/-- helper: reading back a rendered input param -/
theorem parseInputParam_render (df : List OdxDocFragment) (p : InputParam)
    (h : p.dop_base_ref.ref_docs = df) :
    parseInputParam df (renderInputParam p) = some p := by
  cases p with
  | mk sn pdv r =>
    cases r with
    | mk rid rdocs =>
      cases h
      cases pdv <;> rfl

/-- helper: reading back a rendered output param -/
theorem parseOutputParam_render (df : List OdxDocFragment) (p : OutputParam)
    (hid : p.odx_link_id.doc_fragments = df)
    (h : p.dop_base_ref.ref_docs = df) :
    parseOutputParam df (renderOutputParam p) = some p := by
  cases p with
  | mk i sn ln de se r =>
    cases i with
    | mk ilocal ifrags =>
      cases r with
      | mk rid rdocs =>
        cases hid
        cases h
        cases ln <;> cases de <;> cases se <;> rfl

/-- helper: reading back a rendered neg output param -/
theorem parseNegOutputParam_render (df : List OdxDocFragment)
    (p : NegOutputParam) (h : p.dop_base_ref.ref_docs = df) :
    parseNegOutputParam df (renderNegOutputParam p) = some p := by
  cases p with
  | mk sn de r =>
    cases r with
    | mk rid rdocs =>
      cases h
      cases de <;> rfl

/-- helper: reading back a rendered audience -/
theorem parseAudience_render (df : List OdxDocFragment) (a : Audience)
    (hen : ∀ r ∈ a.enabled_audience_refs, r.ref_docs = df)
    (hdis : ∀ r ∈ a.disabled_audience_refs, r.ref_docs = df) :
    parseAudience df (renderAudience a) = some a := by
  cases a with
  | mk en dis =>
    have h1 : optListMap (parseRef df)
        (en.map (renderRef "ENABLED-AUDIENCE-REF")) = some en :=
      optListMap_map _ fun r hr => parseRef_renderRef df _ r (hen r hr)
    have h2 : optListMap (parseRef df)
        (dis.map (renderRef "DISABLED-AUDIENCE-REF")) = some dis :=
      optListMap_map _ fun r hr => parseRef_renderRef df _ r (hdis r hr)
    simp [parseAudience, renderAudience, XElem.findChild, XElem.children,
      XElem.tag, List.find?, h1, h2]

/-- helper: a rendered audience element is tagged AUDIENCE -/
theorem renderAudience_tag (a : Audience) : (renderAudience a).tag = "AUDIENCE" :=
  rfl

/-- helper: tag of a constructed element -/
theorem XElem_tag_elem (t : String) (a : List (String × String))
    (c : List XElem) (s : String) : (XElem.elem t a c s).tag = t := rfl

/-- helper: attributes of a constructed element -/
theorem XElem_attrs_elem (t : String) (a : List (String × String))
    (c : List XElem) (s : String) : (XElem.elem t a c s).attrs = a := rfl

/-- helper: children of a constructed element -/
theorem XElem_children_elem (t : String) (a : List (String × String))
    (c : List XElem) (s : String) : (XElem.elem t a c s).children = c := rfl

/-- helper: text of a constructed element -/
theorem XElem_text_elem (t : String) (a : List (String × String))
    (c : List XElem) (s : String) : (XElem.elem t a c s).text = s := rfl

/-- **C3.** For every constructed Job graph (whose ids and refs were minted
against the reading document's fragments, as the document parser guarantees),
rendering the graph and then parsing the rendered document yields a graph
equal field-for-field to the original; resolving the re-parsed graph yields
the same bound associations as resolving the original, so the law holds for
resolved and unresolved graphs alike and no field value is lost. -/
theorem write_read_roundtrip (df : List OdxDocFragment) (job : SingleEcuJob)
    (h : UsesDocFrags df job) :
    read_single_ecu_job_from_odx (renderSingleEcuJob job) df = some job
    ∧ ∀ db : OdxLinkDatabase OdxObject,
        (read_single_ecu_job_from_odx (renderSingleEcuJob job) df).map
          (resolveSingleEcuJob db) = some (resolveSingleEcuJob db job) := by
  obtain ⟨hid, hfc, hen, hdis, hpc, hip, hop, hnp⟩ := h
  have key : read_single_ecu_job_from_odx (renderSingleEcuJob job) df
      = some job := by
    obtain ⟨i, sn, fcs, aud, pcs, ips, ops, nps⟩ := job
    obtain ⟨ilocal, ifrags⟩ := i
    cases hid
    have hfc' := optListMap_map fcs
      fun r hr => parseRef_renderRef ifrags "FUNCT-CLASS-REF" r (hfc r hr)
    have hpc' := optListMap_map pcs
      fun pc hr => parseProgCode_render ifrags pc (hpc pc hr)
    have hip' := optListMap_map ips
      fun p hp => parseInputParam_render ifrags p (hip p hp)
    have hop' := optListMap_map ops
      fun p hp => parseOutputParam_render ifrags p (hop p hp).1 (hop p hp).2
    have hnp' := optListMap_map nps
      fun p hp => parseNegOutputParam_render ifrags p (hnp p hp)
    cases aud with
    | none =>
      simp [read_single_ecu_job_from_odx, renderSingleEcuJob, renderTextEl,
        XElem.attr, XElem.findChild, XElem.childText, List.find?,
        XElem_tag_elem, XElem_attrs_elem, XElem_children_elem, XElem_text_elem,
        hfc', hpc', hip', hop', hnp']
    | some a =>
      have haud := parseAudience_render ifrags a hen hdis
      simp [read_single_ecu_job_from_odx, renderSingleEcuJob, renderTextEl,
        XElem.attr, XElem.findChild, XElem.childText, List.find?,
        XElem_tag_elem, XElem_attrs_elem, XElem_children_elem, XElem_text_elem,
        renderAudience_tag, hfc', hpc', hip', hop', hnp', haud]
  exact ⟨key, fun db => by rw [key]; rfl⟩

/-- Witness for C3: the test's "JumpStart" job survives the render-then-parse
round trip field-for-field, and resolving the re-parsed graph against the
test database binds the same associations as resolving the original. -/
theorem write_read_roundtrip_witness :
    read_single_ecu_job_from_odx (renderSingleEcuJob testJob) [fragTest]
      = some testJob
    ∧ (read_single_ecu_job_from_odx (renderSingleEcuJob testJob)
        [fragTest]).map (resolveSingleEcuJob testDb)
      = some (resolveSingleEcuJob testDb testJob) :=
  ⟨(write_read_roundtrip [fragTest] testJob
      (by unfold UsesDocFrags; refine ⟨rfl, ?_, ?_, ?_, ?_, ?_, ?_, ?_⟩ <;> decide)).1,
   (write_read_roundtrip [fragTest] testJob
      (by unfold UsesDocFrags; refine ⟨rfl, ?_, ?_, ?_, ?_, ?_, ?_, ?_⟩ <;> decide)).2 testDb⟩

/-- **C9.** `compu_phys_to_internal_from_et` yields a compu_scales list with one
entry per COMPU-SCALE child (under COMPU-SCALES) in document order — entry *i*
is built from the *i*-th such child — a prog_code that is None exactly when
the element has no PROG-CODE child, and a compu_default_value that is None
exactly when the element has no COMPU-DEFAULT-VALUE child. -/
theorem compu_phys_to_internal_from_et_spec (et : XElem)
    (df : List OdxDocFragment) (it pt : DataType) :
    ((compu_phys_to_internal_from_et et df it pt).compu_scales.length
      = (et.iterfind2 "COMPU-SCALES" "COMPU-SCALE").length)
    ∧ (∀ i : ℕ, (compu_phys_to_internal_from_et et df it pt).compu_scales[i]?
        = ((et.iterfind2 "COMPU-SCALES" "COMPU-SCALE")[i]?).map
            fun cse => CompuScale.compuscale_from_et cse df it pt)
    ∧ ((compu_phys_to_internal_from_et et df it pt).prog_code = none
        ↔ et.findChild "PROG-CODE" = none)
    ∧ ((compu_phys_to_internal_from_et et df it pt).compu_default_value = none
        ↔ et.findChild "COMPU-DEFAULT-VALUE" = none) := by
  refine ⟨by simp [compu_phys_to_internal_from_et], ?_, ?_, ?_⟩
  · intro i
    simp [compu_phys_to_internal_from_et, List.getElem?_map]
  · simp [compu_phys_to_internal_from_et, Option.map_eq_none']
  · simp [compu_phys_to_internal_from_et, Option.map_eq_none']

/-- **C10.** Every CompuScale in the compu_scales list of a
CompuPhysToInternal built by `compu_phys_to_internal_from_et` is constructed
with exactly the internal_type and physical_type passed to the constructor,
so all scales of one method share the method's declared data types. -/
theorem compuscale_declared_types (et : XElem) (df : List OdxDocFragment)
    (it pt : DataType) :
    ∀ s ∈ (compu_phys_to_internal_from_et et df it pt).compu_scales,
      s.internal_type = it ∧ s.physical_type = pt := by
  intro s hs
  simp only [compu_phys_to_internal_from_et, List.mem_map] at hs
  obtain ⟨cse, _, rfl⟩ := hs
  exact ⟨rfl, rfl⟩

/-- Witness for C10: the first scale of the sample element is built with the
passed unsigned internal type and string physical type. -/
theorem compuscale_declared_types_witness :
    (CompuScale.compuscale_from_et (.elem "COMPU-SCALE" [] [] "first")
        [fragTest] .a_uint32 .a_unicode2string).internal_type = .a_uint32
    ∧ (CompuScale.compuscale_from_et (.elem "COMPU-SCALE" [] [] "first")
        [fragTest] .a_uint32 .a_unicode2string).physical_type
      = .a_unicode2string :=
  compuscale_declared_types sampleCompuElem [fragTest] .a_uint32 .a_unicode2string
    _
    (by simp [compu_phys_to_internal_from_et, sampleCompuElem,
      CompuScale.compuscale_from_et, XElem.iterfind2, XElem.childrenWithTag,
      XElem_children_elem, XElem_tag_elem, List.filter])

end Odx
